import Mathlib

/-!
Shallow embedding of the DeepScribe clinical-trials matcher core
(`src/lib/ctgov.ts`, `src/lib/extract.ts`, `src/lib/schemas.ts`,
`src/app/api/search/profile/route.ts`) and proofs about the behaviour of
query building, registry-response mapping, transcript extraction and the
profile-search route.

Conventions of the embedding:
* TypeScript `undefined`/`null` optional fields become `Option`; JavaScript
  truthiness on strings (`""` falsy) and numbers (`0` falsy) is modelled
  explicitly at each use site.
* JavaScript numbers that the code uses as ages are modelled as `Int`
  (the schema documents age as an integer; negative values are kept to model
  the code's `age > 0` guard).
* Effectful calls (fetch, LLM completion, JSON parsing of foreign text) are
  modelled by passing the outcome of the call as an explicit argument, so the
  surrounding control flow is a pure function of that outcome.
-/

/-- JS character predicate for `\d` in a regular expression: the ASCII digits. -/
def isDigitChar (c : Char) : Bool :=
  48 ≤ c.toNat && c.toNat ≤ 57

/-- JS character predicate for `\s` (and for the characters `String.prototype.trim`
strips): space, tab, line feed, carriage return, vertical tab, form feed and
no-break space.  (The remaining Unicode space code points of the JS `\s` class
are not modelled; no input in this development contains them.) -/
def isJsWhitespace (c : Char) : Bool :=
  c.toNat = 32 || c.toNat = 9 || c.toNat = 10 || c.toNat = 13 ||
  c.toNat = 11 || c.toNat = 12 || c.toNat = 160

/-- JS `String.prototype.toLowerCase` on one character (ASCII range: the code
only compares the result against ASCII keywords such as "male" or "month"). -/
def jsCharToLower (c : Char) : Char :=
  if 65 ≤ c.toNat && c.toNat ≤ 90 then Char.ofNat (c.toNat + 32) else c

/-- JS `String.prototype.toUpperCase` on one character (ASCII range). -/
def jsCharToUpper (c : Char) : Char :=
  if 97 ≤ c.toNat && c.toNat ≤ 122 then Char.ofNat (c.toNat - 32) else c

/-- JS `s.toLowerCase()` for a whole string. -/
def jsToLowerStr (s : String) : String :=
  ⟨s.data.map jsCharToLower⟩

/-- JS `s.toUpperCase()` for a whole string. -/
def jsToUpperStr (s : String) : String :=
  ⟨s.data.map jsCharToUpper⟩

/-- JS truthiness filter on an optional string: `undefined`, `null` and the
empty string are falsy; a non-empty string passes through. -/
def jsTruthyStr : Option String → Option String
  | some s => if s.isEmpty then none else some s
  | none => none

/-- JS `String.prototype.trim`: strip leading and trailing whitespace. -/
def jsTrim (s : String) : String :=
  ⟨((s.data.dropWhile isJsWhitespace).reverse.dropWhile isJsWhitespace).reverse⟩

-- ============================================================================
-- Data model (src/lib/schemas.ts)
-- ============================================================================

/-- DemographicsSchema: `age` is a nullable number, `sex` a nullable enum.
`sex` is carried as a raw string so that the behaviour of `buildCTGovQuery` on
arbitrary runtime strings can be stated; `patientProfileSchemaValid` below
captures the schema's enum restriction. -/
structure Demographics where
  age : Option Int
  sex : Option String
deriving DecidableEq

/-- BiomarkerSchema: required name, optional value. -/
structure Biomarker where
  name : String
  value : Option String
deriving DecidableEq

/-- LocationSchema: all fields independently optional. -/
structure GeoLocation where
  city : Option String
  state : Option String
  country : Option String
  zip : Option String
deriving DecidableEq

/-- CTGovQuerySchema: both query strings nullable. -/
structure CTGovQuery where
  conditionQuery : Option String
  termQuery : Option String
deriving DecidableEq

/-- PatientProfileSchema. -/
structure PatientProfile where
  demographics : Demographics
  conditions : List String
  diagnosisDate : Option String
  stage : Option String
  biomarkers : Option (List Biomarker)
  priorTherapies : Option (List String)
  performanceStatus : Option String
  location : Option GeoLocation
  notes : Option String
  ctgovQuery : CTGovQuery
deriving DecidableEq

/-- Residual check of `PatientProfileSchema.safeParse` that the typed embedding
does not already guarantee: the demographics sex string, when present, is one
of the enum values `male`/`female`/`other`. -/
def patientProfileSchemaValid (p : PatientProfile) : Bool :=
  match p.demographics.sex with
  | none => true
  | some s => s = "male" || s = "female" || s = "other"

-- ============================================================================
-- Query building (src/lib/ctgov.ts, buildCTGovQuery)
-- ============================================================================

/-- CTGovQueryParams: `none` models the key being absent from the object. -/
structure CTGovQueryParams where
  queryCond : Option String
  filterOverallStatus : Option String
  queryTerm : Option String
  filterAdvanced : Option String
  aggFilters : Option String
  fields : Option String
  pageSize : Option Nat
  sort : Option String
deriving DecidableEq

/-- Field list requested from the registry, joined with commas as in the source. -/
def ctgovFieldsJoined : String :=
  String.intercalate ","
    ["NCTId", "BriefTitle", "OverallStatus", "Condition", "Phase",
     "InterventionName", "EligibilityCriteria", "MinimumAge", "MaximumAge",
     "Sex", "HealthyVolunteers", "LocationFacility", "LocationCity",
     "LocationState", "LocationCountry"]

/-- Advanced age filter template string built for an in-range age. -/
def ageAdvancedFilter (a : Int) : String :=
  "AREA[MinimumAge]RANGE[MIN," ++ toString a ++ " years] AND AREA[MaximumAge]RANGE[" ++
    toString a ++ " years,MAX]"

/-- Value found by a JS property read on the `sexMap` object literal: either
one of the literal's own string values, or a value inherited from
`Object.prototype` — a built-in function (carrying the function's name), or
for `__proto__` the prototype object itself.  All of these are truthy. -/
inductive JsLookupHit where
  | ownStr (value : String)
  | protoFn (name : String)
  | protoObj
deriving DecidableEq

/-- Names of the `Object.prototype` methods (other than `constructor` and the
`__proto__` accessor, which are treated separately) that a plain object
literal inherits and a string-keyed read can therefore find. -/
def objectProtoMethodNames : List String :=
  ["hasOwnProperty", "isPrototypeOf", "propertyIsEnumerable", "toLocaleString",
   "toString", "valueOf", "__defineGetter__", "__defineSetter__",
   "__lookupGetter__", "__lookupSetter__"]

/-- JS string conversion of a lookup hit, as interpolated by
`` `sex:${mappedSex}` ``: an own value verbatim; a built-in function renders
in the standard NativeFunction form (the exact source text of a built-in is
host-defined; no theorem depends on it); `Object.prototype` itself renders as
`[object Object]`. -/
def jsStringOfHit : JsLookupHit → String
  | JsLookupHit.ownStr v => v
  | JsLookupHit.protoFn name => "function " ++ name ++ "() \x7b [native code] \x7d"
  | JsLookupHit.protoObj => "[object Object]"

/-- Lookup in the source's `sexMap` object literal
`{male: 'm', female: 'f', all: 'all', other: 'all'}`.  The literal is a plain
object, so the JS read `sexMap[sex]` falls back to the prototype chain: beyond
the four own keys, `constructor` finds the `Object` constructor function,
`__proto__` finds `Object.prototype` via its inherited accessor, and the other
`Object.prototype` method names find the corresponding built-in functions; any
other key yields `undefined`. -/
def sexMapLookup (l : String) : Option JsLookupHit :=
  if l = "male" then some (JsLookupHit.ownStr "m")
  else if l = "female" then some (JsLookupHit.ownStr "f")
  else if l = "all" then some (JsLookupHit.ownStr "all")
  else if l = "other" then some (JsLookupHit.ownStr "all")
  else if l = "constructor" then some (JsLookupHit.protoFn "Object")
  else if l = "__proto__" then some JsLookupHit.protoObj
  else if l ∈ objectProtoMethodNames then some (JsLookupHit.protoFn l)
  else none

/-- buildCTGovQuery: each field holds the value the source's sequence of
conditional assignments leaves in the params object (each conditional touches
a distinct key, so the object is given here field by field).
`if (x)` guards on strings/numbers are JS-truthiness guards. -/
def buildCTGovQuery (profile : PatientProfile) : CTGovQueryParams :=
  { filterOverallStatus := some "RECRUITING,NOT_YET_RECRUITING"
    fields := some ctgovFieldsJoined
    pageSize := some 20
    sort := some "LastUpdatePostDate:desc"
    queryCond :=
      match profile.ctgovQuery.conditionQuery with
      | some s => if s.isEmpty then none else some s
      | none => none
    queryTerm :=
      match profile.ctgovQuery.termQuery with
      | some s => if s.isEmpty then none else some s
      | none => none
    filterAdvanced :=
      match profile.demographics.age with
      | some a =>
          if a = 0 then none
          else if 0 < a && a ≤ 120 then some (ageAdvancedFilter a) else none
      | none => none
    aggFilters :=
      match profile.demographics.sex with
      | some s =>
          if s.isEmpty then none
          else
            match sexMapLookup (jsToLowerStr s) with
            | some hit => some ("sex:" ++ jsStringOfHit hit)
            | none => none
      | none => none }

/-- paramsToQueryString: serialize the defined params in object insertion order
(percent-encoding done by `URLSearchParams` is not modelled; no claim depends
on the serialized string). -/
def paramsToQueryString (params : CTGovQueryParams) : String :=
  let entry : String → Option String → List String := fun k v =>
    match v with
    | some s => [k ++ "=" ++ s]
    | none => []
  String.intercalate "&"
    (entry "filter.overallStatus" params.filterOverallStatus ++
     entry "fields" params.fields ++
     entry "pageSize" (params.pageSize.map toString) ++
     entry "sort" params.sort ++
     entry "query.cond" params.queryCond ++
     entry "query.term" params.queryTerm ++
     entry "filter.advanced" params.filterAdvanced ++
     entry "aggFilters" params.aggFilters)

-- ============================================================================
-- Trial model and registry response model (src/lib/schemas.ts, src/lib/ctgov.ts)
-- ============================================================================

/-- AgeUnitSchema. -/
inductive AgeUnit where
  | Years
  | Months
  | Days
deriving DecidableEq

/-- AgeSchema: `{value, unit}`. -/
structure AgeVal where
  value : Nat
  unit : AgeUnit
deriving DecidableEq

/-- SexSchema enum values. -/
inductive TrialSex where
  | ALL
  | FEMALE
  | MALE
deriving DecidableEq

/-- EligibilitySchema (the nullable-vs-absent distinction of `sex` and
`healthyVolunteers` collapses to `Option`). -/
structure Eligibility where
  criteriaText : Option String
  minAge : Option AgeVal
  maxAge : Option AgeVal
  sex : Option TrialSex
  healthyVolunteers : Option Bool
deriving DecidableEq

/-- TrialLocationSchema. -/
structure TrialLocation where
  facility : Option String
  city : Option String
  state : Option String
  country : Option String
deriving DecidableEq

/-- TrialSchema. -/
structure Trial where
  nctId : String
  title : String
  overallStatus : String
  conditions : List String
  phases : Option (List String)
  interventions : Option (List String)
  eligibility : Eligibility
  locations : Option (List TrialLocation)
  url : String
deriving DecidableEq

/-- CTGovStudy.protocolSection.identificationModule. -/
structure IdentificationModule where
  nctId : Option String
  briefTitle : Option String
deriving DecidableEq

/-- CTGovStudy.protocolSection.armsInterventionsModule.interventions entries. -/
structure InterventionEntry where
  name : Option String
deriving DecidableEq

/-- CTGovStudy.protocolSection.eligibilityModule. -/
structure EligibilityModule where
  eligibilityCriteria : Option String
  minimumAge : Option String
  maximumAge : Option String
  sex : Option String
  healthyVolunteers : Option Bool
deriving DecidableEq

/-- CTGovStudy.protocolSection.contactsLocationsModule.locations entries. -/
structure StudyLocation where
  facility : Option String
  city : Option String
  state : Option String
  country : Option String
deriving DecidableEq

/-- CTGovStudy.protocolSection (each module optional as in the source interface). -/
structure ProtocolSection where
  identificationModule : Option IdentificationModule
  overallStatus : Option String
  conditions : Option (List String)
  phases : Option (List String)
  interventions : Option (List InterventionEntry)
  eligibilityModule : Option EligibilityModule
  locations : Option (List StudyLocation)
deriving DecidableEq

/-- CTGovStudy. -/
structure CTGovStudy where
  protocolSection : Option ProtocolSection
deriving DecidableEq

/-- CTGovResponse. -/
structure CTGovResponseData where
  studies : Option (List CTGovStudy)
  totalCount : Option Nat
deriving DecidableEq

-- ============================================================================
-- Age parsing (src/lib/ctgov.ts, parseAge)
-- ============================================================================

/-- Numeric value of a digit sequence, as `parseInt(s, 10)` computes it for an
all-digit string. -/
def natOfDigits (ds : List Char) : Nat :=
  ds.foldl (fun n c => n * 10 + (c.toNat - 48)) 0

/-- Anchored alternation `(Years?|Months?|Days?)` of the source regex with the
`i` flag: the remainder must be, case-insensitively, one of the six unit words. -/
def ageUnitRegexOk (t : List Char) : Bool :=
  t.map jsCharToLower = "year".data || t.map jsCharToLower = "years".data ||
  t.map jsCharToLower = "month".data || t.map jsCharToLower = "months".data ||
  t.map jsCharToLower = "day".data || t.map jsCharToLower = "days".data

/-- Unit-resolution branch of `parseAge`: lower-case the matched unit text and
test `startsWith('month')` / `startsWith('day')`, defaulting to `Years`. -/
def unitFromStr (t : List Char) : AgeUnit :=
  if "month".data.isPrefixOf (t.map jsCharToLower) then AgeUnit.Months
  else if "day".data.isPrefixOf (t.map jsCharToLower) then AgeUnit.Days
  else AgeUnit.Years

/-- Matcher for the source regex `^(\d+)\s*(Years?|Months?|Days?)$/i` on a
character list: the leading maximal digit run (group 1), then a run of
whitespace, then the unit word (group 2).  Returns the two capture groups.
(The regex is deterministic here: backtracking on `\d+`/`\s*` can never turn a
failure into a match, because neither a digit nor a whitespace character can
begin the unit alternation.) -/
def ageRegexMatch (cs : List Char) : Option (List Char × List Char) :=
  if (cs.takeWhile isDigitChar).isEmpty then none
  else if ageUnitRegexOk ((cs.dropWhile isDigitChar).dropWhile isJsWhitespace) then
    some (cs.takeWhile isDigitChar, (cs.dropWhile isDigitChar).dropWhile isJsWhitespace)
  else none

/-- parseAge on the character list of the input string (after the `!ageStr`
falsy guard of the source). -/
def parseAgeChars (cs : List Char) : Option AgeVal :=
  if cs.isEmpty then none
  else
    match ageRegexMatch cs with
    | none => none
    | some (ds, t) => some ⟨natOfDigits ds, unitFromStr t⟩

/-- parseAge: `undefined` input and (via JS falsiness) the empty string yield
`undefined`; otherwise run the regex and build `{value, unit}`. -/
def parseAge (ageStr : Option String) : Option AgeVal :=
  match ageStr with
  | none => none
  | some s => parseAgeChars s.data

-- ============================================================================
-- Sex mapping of registry values (src/lib/ctgov.ts, mapSex)
-- ============================================================================

/-- mapSex: normalize to upper case and map `ALL`/`BOTH`/`FEMALE`/`MALE`;
anything else (including absent and, via JS falsiness, the empty string)
maps to null. -/
def mapSex (sex : Option String) : Option TrialSex :=
  match sex with
  | none => none
  | some s =>
      if s.isEmpty then none
      else
        let normalized := jsToUpperStr s
        if normalized = "ALL" || normalized = "BOTH" then some TrialSex.ALL
        else if normalized = "FEMALE" then some TrialSex.FEMALE
        else if normalized = "MALE" then some TrialSex.MALE
        else none

-- ============================================================================
-- Study mapping (src/lib/ctgov.ts, mapStudyToTrial)
-- ============================================================================

/-- Model of zod's `z.string().url()` test used by `TrialSchema`: the WHATWG
URL constructor must accept the string; modelled as requiring a non-empty
scheme followed by the `://` separator. -/
def zodUrlOk (s : String) : Bool :=
  let scheme := s.data.takeWhile (fun c => c ≠ ':')
  !scheme.isEmpty && "://".data.isPrefixOf (s.data.drop scheme.length)

/-- Residual check of `TrialSchema.parse` beyond what the typed embedding
already guarantees structurally: the derived `url` string must pass the zod
url test. -/
def trialSchemaCheck (t : Trial) : Bool :=
  zodUrlOk t.url

/-- Candidate trial object assembled by `mapStudyToTrial` once the protocol
section, a truthy nctId and a truthy title are in hand. -/
def assembleTrial (protocol : ProtocolSection) (nctId title : String) : Trial :=
  { nctId := nctId
    title := title
    overallStatus :=
      match jsTruthyStr protocol.overallStatus with
      | some s => s
      | none => "UNKNOWN"
    conditions := protocol.conditions.getD []
    phases := protocol.phases
    interventions := protocol.interventions.map (·.map (fun i => i.name.getD ""))
    eligibility :=
      { criteriaText := protocol.eligibilityModule.bind (·.eligibilityCriteria)
        minAge := parseAge (protocol.eligibilityModule.bind (·.minimumAge))
        maxAge := parseAge (protocol.eligibilityModule.bind (·.maximumAge))
        sex := mapSex (protocol.eligibilityModule.bind (·.sex))
        healthyVolunteers := protocol.eligibilityModule.bind (·.healthyVolunteers) }
    locations := protocol.locations.map (·.map
      (fun loc => ⟨loc.facility, loc.city, loc.state, loc.country⟩))
    url := "https://clinicaltrials.gov/study/" ++ nctId }

/-- mapStudyToTrial: drop the study when the protocol section is absent or the
nctId or title is falsy; otherwise assemble the candidate and validate it
(`TrialSchema.parse` inside try/catch: validation failure yields null). -/
def mapStudyToTrial (study : CTGovStudy) : Option Trial :=
  match study.protocolSection with
  | none => none
  | some protocol =>
      match jsTruthyStr (protocol.identificationModule.bind (·.nctId)),
            jsTruthyStr (protocol.identificationModule.bind (·.briefTitle)) with
      | some nctId, some title =>
          let trial := assembleTrial protocol nctId title
          if trialSchemaCheck trial then some trial else none
      | some _, none => none
      | none, _ => none

-- ============================================================================
-- Registry client (src/lib/ctgov.ts, searchAndMapTrials)
-- ============================================================================

/-- CTGovAPIError: message plus optional HTTP status code. -/
structure CTGovAPIError where
  message : String
  statusCode : Option Nat
deriving DecidableEq

/-- Outcome of the single `fetch` of `searchAndMapTrials`: either the network
call itself throws (an `Error` carrying a message), or a response arrives with
an ok flag, a status, a status text and a body whose JSON decoding may fail. -/
inductive FetchOutcome where
  | throwsErr (msg : String)
  | response (ok : Bool) (status : Nat) (statusText : String)
      (body : Except String CTGovResponseData)

/-- searchAndMapTrials as a function of the profile and the fetch outcome.
The try/catch of the source rethrows `CTGovAPIError` unchanged and wraps any
other thrown `Error` as `CTGovAPIError('Search failed: ' + message)` with no
status code; a body whose JSON decoding throws takes that same wrapping path. -/
def searchAndMapTrials (profile : PatientProfile) (outcome : FetchOutcome) :
    Except CTGovAPIError (List Trial) :=
  let queryString := paramsToQueryString (buildCTGovQuery profile)
  let _url := "https://clinicaltrials.gov/api/v2/studies?" ++ queryString
  match outcome with
  | .throwsErr msg => .error ⟨"Search failed: " ++ msg, none⟩
  | .response ok status statusText body =>
      if !ok then
        .error ⟨"API returned " ++ toString status ++ ": " ++ statusText, some status⟩
      else
        match body with
        | .error msg => .error ⟨"Search failed: " ++ msg, none⟩
        | .ok data =>
            match data.studies with
            | none => .ok []
            | some studies =>
                if studies.isEmpty then .ok []
                else .ok ((studies.map mapStudyToTrial).reduceOption)

-- ============================================================================
-- Extraction engine (src/lib/extract.ts, extractPatientProfile)
-- ============================================================================

/-- Plain JavaScript `Error` value: only the message is observable here. -/
structure JsError where
  message : String
deriving DecidableEq

/-- Outcome of the one completion-gateway call `provider.complete(...)`:
either the raw response text, or a thrown `Error` (gateway construction and
transport failures alike). -/
inductive LLMOutcome where
  | success (raw : String)
  | failure (msg : String)
deriving DecidableEq

/-- Combined outcome of `JSON.parse` on the raw response followed by
`PatientProfileSchema.parse`: a validated profile, a JSON syntax error, or a
schema-validation error (both thrown as `Error`s carrying a message). -/
inductive ParseOutcome where
  | valid (p : PatientProfile)
  | jsonError (msg : String)
  | schemaError (msg : String)

/-- extractPatientProfile as a function of the transcript, the gateway
outcome and the parse/validate outcome of the raw text.  The second component
counts completion-gateway invocations.  The empty/whitespace-only guard throws
`Error('Transcript cannot be empty')` before the try block, so that error is
never wrapped; every failure inside the try block is rethrown as
`Error('Patient profile extraction failed: ' + message)`. -/
def extractPatientProfile (transcript : String) (llm : LLMOutcome)
    (interpret : String → ParseOutcome) : Except JsError PatientProfile × Nat :=
  if transcript = "" ∨ jsTrim transcript = "" then
    (.error ⟨"Transcript cannot be empty"⟩, 0)
  else
    match llm with
    | .failure msg => (.error ⟨"Patient profile extraction failed: " ++ msg⟩, 1)
    | .success raw =>
        match interpret raw with
        | .jsonError msg => (.error ⟨"Patient profile extraction failed: " ++ msg⟩, 1)
        | .schemaError msg => (.error ⟨"Patient profile extraction failed: " ++ msg⟩, 1)
        | .valid p => (.ok p, 1)

-- ============================================================================
-- Profile search route (src/app/api/search/profile/route.ts, POST)
-- ============================================================================

/-- JS falsiness of the route's `!patientProfile.stage` test: `null`,
absent and the empty string are falsy. -/
def jsFalsyStrOpt : Option String → Bool
  | none => true
  | some s => s.isEmpty

/-- JS falsiness of the route's `!patientProfile.biomarkers` test: only
`null`/absent are falsy — an array is truthy even when it is empty. -/
def jsFalsyBiomarkers : Option (List Biomarker) → Bool
  | none => true
  | some _ => false

/-- Continuation of the POST handler after a successful schema parse: either
an early 400 response (issued before `searchAndMapTrials`, hence before any
registry network call) or the call of `searchAndMapTrials` with the profile. -/
inductive RouteAction where
  | reject (status : Nat) (errorMsg : String)
  | callSearch (profile : PatientProfile)
deriving DecidableEq

/-- POST /api/search/profile, medical-content guard: reject when the conditions
list is empty, `biomarkers` is falsy and `stage` is falsy; otherwise proceed to
the registry search. -/
def profileRoutePOST (profile : PatientProfile) : RouteAction :=
  if profile.conditions.isEmpty && jsFalsyBiomarkers profile.biomarkers &&
      jsFalsyStrOpt profile.stage then
    .reject 400
      "No medical conditions in profile. Please provide at least one condition, biomarker, or stage."
  else
    .callSearch profile

/-- Truth of `RouteAction` being the early rejection. -/
def RouteAction.isReject : RouteAction → Bool
  | .reject _ _ => true
  | .callSearch _ => false

/-- Reading of the claim's rejection criterion: the profile lacks a non-empty
conditions list, lacks non-empty biomarkers (an empty biomarkers list counts
as lacking them) and lacks a non-empty stage. -/
def lacksAllMedicalContent (p : PatientProfile) : Bool :=
  p.conditions.isEmpty &&
  (match p.biomarkers with
   | none => true
   | some l => l.isEmpty) &&
  jsFalsyStrOpt p.stage

-- ============================================================================
-- Instances and auxiliary predicates used by the statements
-- ============================================================================

deriving instance DecidableEq for Except

/-- Predicate of the mapper's first drop rule, as the claim states it: the
study record has no protocol section, or its nctId or brief title is falsy. -/
def studyMissingIdOrTitle (study : CTGovStudy) : Bool :=
  match study.protocolSection with
  | none => true
  | some protocol =>
      (jsTruthyStr (protocol.identificationModule.bind (·.nctId))).isNone ||
      (jsTruthyStr (protocol.identificationModule.bind (·.briefTitle))).isNone

/-- Spec-side description of the unit words accepted for each unit: the unit
text, lower-cased, is the unit's name with or without the trailing `s`. -/
def AgeWordFor (u : AgeUnit) (low : List Char) : Prop :=
  match u with
  | AgeUnit.Years => low = "year".data ∨ low = "years".data
  | AgeUnit.Months => low = "month".data ∨ low = "months".data
  | AgeUnit.Days => low = "day".data ∨ low = "days".data

/-- Spec-side description of the age strings the parser accepts (amended
form): a non-empty digit run, a possibly empty whitespace run, and a unit word,
with the parsed value being the numeric value of the digit run. -/
def AgeStringMatch (s : String) (v : Nat) (u : AgeUnit) : Prop :=
  ∃ d w t : List Char,
    s.data = d ++ w ++ t ∧
    d ≠ [] ∧
    (∀ c ∈ d, isDigitChar c = true) ∧
    (∀ c ∈ w, isJsWhitespace c = true) ∧
    AgeWordFor u (t.map jsCharToLower) ∧
    v = natOfDigits d

/-- Claimed input form of the age parser taken literally: an integer, exactly
one space, and a unit word (case-insensitive, optional trailing `s`). -/
def singleSpaceAgeFormCheck (s : String) : Bool :=
  let ds := s.data.takeWhile isDigitChar
  !ds.isEmpty &&
    (match s.data.drop ds.length with
     | c :: t => c = ' ' && ageUnitRegexOk t
     | [] => false)

-- ============================================================================
-- Concrete fixtures used by counterexamples and witnesses
-- ============================================================================

/-- Profile with no medical content at all (schema-valid). -/
def blankProfile : PatientProfile :=
  ⟨⟨none, none⟩, [], none, none, none, none, none, none, none, ⟨none, none⟩⟩

/-- Profile whose biomarkers field is a present-but-empty list, with empty
conditions and no stage (schema-valid). -/
def emptyBiomarkersProfile : PatientProfile :=
  ⟨⟨none, none⟩, [], none, none, some [], none, none, none, none, ⟨none, none⟩⟩

/-- Profile with an age, a capitalized sex, a non-empty condition query and an
empty term query. -/
def sampleQueryProfile : PatientProfile :=
  ⟨⟨some 55, some "Male"⟩, ["melanoma"], none, some "Stage IV", none, none,
    none, none, none, ⟨some "melanoma", some ""⟩⟩

/-- Profile whose sex string, lower-cased, is the inherited property name
`constructor`. -/
def constructorSexProfile : PatientProfile :=
  ⟨⟨none, some "Constructor"⟩, ["melanoma"], none, none, none, none,
    none, none, none, ⟨none, none⟩⟩

/-- Protocol section of a well-formed study record. -/
def protoA : ProtocolSection :=
  ⟨some ⟨some "NCT001", some "Study A"⟩, none, none, none, none, none, none⟩

/-- Protocol section of a second well-formed study record. -/
def protoC : ProtocolSection :=
  ⟨some ⟨some "NCT003", some "Study C"⟩, none, none, none, none, none, none⟩

/-- Well-formed study record. -/
def studyA : CTGovStudy := ⟨some protoA⟩

/-- Study record whose identification module lacks the nctId. -/
def studyNoId : CTGovStudy :=
  ⟨some ⟨some ⟨none, some "Study B"⟩, none, none, none, none, none, none⟩⟩

/-- Second well-formed study record. -/
def studyC : CTGovStudy := ⟨some protoC⟩

/-- Trial produced from `studyA`. -/
def trialA : Trial :=
  ⟨"NCT001", "Study A", "UNKNOWN", [], none, none, ⟨none, none, none, none, none⟩,
    none, "https://clinicaltrials.gov/study/NCT001"⟩

/-- Trial produced from `studyC`. -/
def trialC : Trial :=
  ⟨"NCT003", "Study C", "UNKNOWN", [], none, none, ⟨none, none, none, none, none⟩,
    none, "https://clinicaltrials.gov/study/NCT003"⟩

-- ============================================================================
-- Helper lemmas
-- ============================================================================

lemma jsFalsyBiomarkers_iff (b : Option (List Biomarker)) :
    jsFalsyBiomarkers b = true ↔ b = none := by
  cases b <;> simp [jsFalsyBiomarkers]

lemma jsFalsyStrOpt_iff (o : Option String) :
    jsFalsyStrOpt o = true ↔ (o = none ∨ o = some "") := by
  cases o with
  | none => simp [jsFalsyStrOpt]
  | some s => simp [jsFalsyStrOpt, String.isEmpty_iff]

-- ============================================================================
-- C1: profile-search route rejection criterion
-- ============================================================================

/-- C1 (counterexample): the claim says a schema-valid profile lacking a
non-empty conditions list, non-empty biomarkers and a non-empty stage is
rejected before any registry call.  The profile whose biomarkers field is a
present-but-empty list lacks all three in the claim's sense, yet the route
does not reject it: `!profile.biomarkers` is false for an empty array, so the
handler proceeds to `searchAndMapTrials` (a registry network call). -/
theorem profileRoute_emptyBiomarkers_not_rejected :
    patientProfileSchemaValid emptyBiomarkersProfile = true ∧
    lacksAllMedicalContent emptyBiomarkersProfile = true ∧
    profileRoutePOST emptyBiomarkersProfile =
      RouteAction.callSearch emptyBiomarkersProfile := by
  decide

/-- C1 (amended): for every profile, the route rejects with the 400 error
before the registry call exactly when the conditions list is empty, the
biomarkers field is null or absent (a present-but-empty biomarkers array
counts as content and is not rejected), and the stage is null, absent or the
empty string; otherwise it proceeds to `searchAndMapTrials` with the profile. -/
theorem profileRoute_reject_iff (p : PatientProfile) :
    ((profileRoutePOST p).isReject = true ↔
      (p.conditions = [] ∧ p.biomarkers = none ∧
        (p.stage = none ∨ p.stage = some ""))) ∧
    ((profileRoutePOST p).isReject = false →
      profileRoutePOST p = RouteAction.callSearch p) := by
  by_cases hcond :
      (p.conditions.isEmpty && jsFalsyBiomarkers p.biomarkers &&
        jsFalsyStrOpt p.stage) = true
  · have hroute : profileRoutePOST p = RouteAction.reject 400
        "No medical conditions in profile. Please provide at least one condition, biomarker, or stage." := by
      unfold profileRoutePOST
      rw [if_pos hcond]
    obtain ⟨⟨h1, h2⟩, h3⟩ : (_ ∧ _) ∧ _ := by
      simpa only [Bool.and_eq_true] using hcond
    rw [hroute]
    constructor
    · simp only [RouteAction.isReject]
      constructor
      · intro _
        exact ⟨List.isEmpty_iff.mp h1, (jsFalsyBiomarkers_iff _).mp h2,
          (jsFalsyStrOpt_iff _).mp h3⟩
      · intro _
        trivial
    · intro hfalse
      simp [RouteAction.isReject] at hfalse
  · have hroute : profileRoutePOST p = RouteAction.callSearch p := by
      unfold profileRoutePOST
      rw [if_neg hcond]
    rw [hroute]
    refine ⟨?_, fun _ => rfl⟩
    simp only [RouteAction.isReject]
    constructor
    · intro h
      simp at h
    · rintro ⟨h1, h2, h3⟩
      exfalso
      apply hcond
      simp only [Bool.and_eq_true]
      exact ⟨⟨List.isEmpty_iff.mpr h1, (jsFalsyBiomarkers_iff _).mpr h2⟩,
        (jsFalsyStrOpt_iff _).mpr h3⟩

/-- Witness for `profileRoute_reject_iff` at the profile with no medical
content at all. -/
theorem profileRoute_reject_iff_witness :
    (profileRoutePOST blankProfile).isReject = true :=
  (profileRoute_reject_iff blankProfile).1.mpr ⟨rfl, rfl, Or.inl rfl⟩

-- ============================================================================
-- C2: condition/term queries copied verbatim or omitted
-- ============================================================================

/-- C2: `buildCTGovQuery` copies a non-empty `conditionQuery` verbatim into
`query.cond` and a non-empty `termQuery` verbatim into `query.term`; when
either is the empty string or null/absent, the corresponding key is omitted
entirely (never present as an empty string). -/
theorem buildQuery_cond_term_verbatim_or_omitted (p : PatientProfile) :
    (∀ s, p.ctgovQuery.conditionQuery = some s → s ≠ "" →
      (buildCTGovQuery p).queryCond = some s) ∧
    (p.ctgovQuery.conditionQuery = some "" ∨ p.ctgovQuery.conditionQuery = none →
      (buildCTGovQuery p).queryCond = none) ∧
    (∀ s, p.ctgovQuery.termQuery = some s → s ≠ "" →
      (buildCTGovQuery p).queryTerm = some s) ∧
    (p.ctgovQuery.termQuery = some "" ∨ p.ctgovQuery.termQuery = none →
      (buildCTGovQuery p).queryTerm = none) := by
  refine ⟨?_, ?_, ?_, ?_⟩
  · intro s hs hne
    simp [buildCTGovQuery, hs, String.isEmpty_iff, hne]
  · rintro (h | h) <;> simp [buildCTGovQuery, h, String.isEmpty_iff]
  · intro s hs hne
    simp [buildCTGovQuery, hs, String.isEmpty_iff, hne]
  · rintro (h | h) <;> simp [buildCTGovQuery, h, String.isEmpty_iff]

/-- Witness for `buildQuery_cond_term_verbatim_or_omitted`: a profile with a
non-empty condition query and an empty term query. -/
theorem buildQuery_cond_term_witness :
    (buildCTGovQuery sampleQueryProfile).queryCond = some "melanoma" ∧
    (buildCTGovQuery sampleQueryProfile).queryTerm = none :=
  ⟨(buildQuery_cond_term_verbatim_or_omitted sampleQueryProfile).1 "melanoma" rfl
      (by decide),
   (buildQuery_cond_term_verbatim_or_omitted sampleQueryProfile).2.2.2 (Or.inl rfl)⟩

-- ============================================================================
-- C3: advanced age filter
-- ============================================================================

/-- C3: when the profile's age is in [1,120], `buildCTGovQuery` sets
`filter.advanced` to the exact range-filter string for that age; when the age
is zero, negative, above 120 or absent, no `filter.advanced` key is set. -/
theorem buildQuery_age_filter (p : PatientProfile) :
    (∀ a : Int, p.demographics.age = some a →
      ((1 ≤ a → a ≤ 120 →
        (buildCTGovQuery p).filterAdvanced =
          some ("AREA[MinimumAge]RANGE[MIN," ++ toString a ++
            " years] AND AREA[MaximumAge]RANGE[" ++ toString a ++ " years,MAX]")) ∧
       (a ≤ 0 ∨ 120 < a → (buildCTGovQuery p).filterAdvanced = none))) ∧
    (p.demographics.age = none → (buildCTGovQuery p).filterAdvanced = none) := by
  constructor
  · intro a ha
    constructor
    · intro h1 h2
      have hne : ¬(a = 0) := by omega
      have hrange : (decide (0 < a) && decide (a ≤ 120)) = true := by
        simp only [Bool.and_eq_true, decide_eq_true_eq]
        omega
      simp [buildCTGovQuery, ha, hne, hrange, ageAdvancedFilter]
    · intro h
      by_cases h0 : a = 0
      · simp [buildCTGovQuery, ha, h0]
      · have hrange : (decide (0 < a) && decide (a ≤ 120)) = false := by
          simp only [Bool.and_eq_false_iff, decide_eq_false_iff_not]
          omega
        simp [buildCTGovQuery, ha, h0, hrange]
  · intro ha
    simp [buildCTGovQuery, ha]

/-- Witness for `buildQuery_age_filter` at age 55. -/
theorem buildQuery_age_filter_witness :
    (buildCTGovQuery sampleQueryProfile).filterAdvanced =
      some "AREA[MinimumAge]RANGE[MIN,55 years] AND AREA[MaximumAge]RANGE[55 years,MAX]" := by
  have h := ((buildQuery_age_filter sampleQueryProfile).1 55 rfl).1
    (by decide) (by decide)
  rw [h]
  rfl

-- ============================================================================
-- C4 helpers: lower-casing never produces an ASCII upper-case letter
-- ============================================================================

lemma jsCharToLower_not_upper (c : Char) :
    ¬(65 ≤ (jsCharToLower c).toNat ∧ (jsCharToLower c).toNat ≤ 90) := by
  unfold jsCharToLower
  by_cases h : (65 ≤ c.toNat && c.toNat ≤ 90) = true
  · rw [if_pos h]
    simp only [Bool.and_eq_true, decide_eq_true_eq] at h
    obtain ⟨h1, h2⟩ := h
    revert h1 h2
    generalize c.toNat = m
    intro h1 h2
    interval_cases m <;> decide
  · rw [if_neg h]
    simp only [Bool.and_eq_true, decide_eq_true_eq, not_and, not_le] at h
    intro hc
    have := h hc.1
    omega

lemma jsToLowerStr_ne (s N : String) (ch : Char) (hch : ch ∈ N.data)
    (h65 : 65 ≤ ch.toNat) (h90 : ch.toNat ≤ 90) : jsToLowerStr s ≠ N := by
  intro h
  have hmem : ch ∈ s.data.map jsCharToLower := by
    have : (jsToLowerStr s).data = s.data.map jsCharToLower := rfl
    rw [← this, h]
    exact hch
  obtain ⟨c, _, hfc⟩ := List.mem_map.mp hmem
  exact jsCharToLower_not_upper c (hfc ▸ ⟨h65, h90⟩)

-- ============================================================================
-- C4: sex filter mapping
-- ============================================================================

/-- C4 (counterexample): the claim says any sex string other than
male/female/other/all adds no `aggFilters` key; but `sexMap` is a plain object
literal, so `sexMap['constructor']` finds the inherited `Object` constructor —
a truthy value — and the code does set `aggFilters` for the sex string
"Constructor", which lower-cases to `constructor` and is none of the four
mapped values. -/
theorem buildQuery_sex_prototype_counterexample :
    jsToLowerStr "Constructor" ≠ "male" ∧ jsToLowerStr "Constructor" ≠ "female" ∧
    jsToLowerStr "Constructor" ≠ "other" ∧ jsToLowerStr "Constructor" ≠ "all" ∧
    (buildCTGovQuery constructorSexProfile).aggFilters ≠ none := by
  decide

/-- C4 (amended): `buildCTGovQuery` maps the profile's sex, matched
case-insensitively, as male → `sex:m`, female → `sex:f`, other → `sex:all`,
all → `sex:all`; for a sex string whose lower-cased form is `constructor` or
`__proto__` — a property name inherited from `Object.prototype` that survives
lower-casing — the object lookup finds a truthy inherited value and an
`aggFilters` key IS set (to `sex:` followed by that value's string
conversion); for any other string or an absent sex no `aggFilters` key is
added.  (The other inherited names contain upper-case letters, so no
lower-cased key can reach them.) -/
theorem buildQuery_sex_filter_amended (p : PatientProfile) :
    (∀ s, p.demographics.sex = some s →
      ((jsToLowerStr s = "male" → (buildCTGovQuery p).aggFilters = some "sex:m") ∧
       (jsToLowerStr s = "female" → (buildCTGovQuery p).aggFilters = some "sex:f") ∧
       (jsToLowerStr s = "other" → (buildCTGovQuery p).aggFilters = some "sex:all") ∧
       (jsToLowerStr s = "all" → (buildCTGovQuery p).aggFilters = some "sex:all") ∧
       (jsToLowerStr s = "constructor" →
        ∃ v, (buildCTGovQuery p).aggFilters = some ("sex:" ++ v)) ∧
       (jsToLowerStr s = "__proto__" →
        ∃ v, (buildCTGovQuery p).aggFilters = some ("sex:" ++ v)) ∧
       (jsToLowerStr s ≠ "male" → jsToLowerStr s ≠ "female" →
        jsToLowerStr s ≠ "other" → jsToLowerStr s ≠ "all" →
        jsToLowerStr s ≠ "constructor" → jsToLowerStr s ≠ "__proto__" →
        (buildCTGovQuery p).aggFilters = none))) ∧
    (p.demographics.sex = none → (buildCTGovQuery p).aggFilters = none) := by
  have hlow_empty : ∀ s : String, s.isEmpty = true → jsToLowerStr s = "" := by
    intro s hs
    rw [String.isEmpty_iff] at hs
    subst hs
    rfl
  constructor
  · intro s hs
    by_cases he : s.isEmpty
    · have h0 := hlow_empty s he
      refine ⟨?_, ?_, ?_, ?_, ?_, ?_, ?_⟩
      · intro h
        rw [h0] at h
        exact absurd h (by decide)
      · intro h
        rw [h0] at h
        exact absurd h (by decide)
      · intro h
        rw [h0] at h
        exact absurd h (by decide)
      · intro h
        rw [h0] at h
        exact absurd h (by decide)
      · intro h
        rw [h0] at h
        exact absurd h (by decide)
      · intro h
        rw [h0] at h
        exact absurd h (by decide)
      · intro _ _ _ _ _ _
        simp [buildCTGovQuery, hs, he]
    · refine ⟨?_, ?_, ?_, ?_, ?_, ?_, ?_⟩
      · intro h
        simp [buildCTGovQuery, hs, he, sexMapLookup, jsStringOfHit, h]
      · intro h
        simp [buildCTGovQuery, hs, he, sexMapLookup, jsStringOfHit, h]
      · intro h
        simp [buildCTGovQuery, hs, he, sexMapLookup, jsStringOfHit, h]
      · intro h
        simp [buildCTGovQuery, hs, he, sexMapLookup, jsStringOfHit, h]
      · intro h
        refine ⟨jsStringOfHit (JsLookupHit.protoFn "Object"), ?_⟩
        simp [buildCTGovQuery, hs, he, sexMapLookup, h]
      · intro h
        refine ⟨jsStringOfHit JsLookupHit.protoObj, ?_⟩
        simp [buildCTGovQuery, hs, he, sexMapLookup, h]
      · intro h1 h2 h3 h4 h5 h6
        have w1 : jsToLowerStr s ≠ "hasOwnProperty" :=
          jsToLowerStr_ne s _ 'O' (by decide) (by decide) (by decide)
        have w2 : jsToLowerStr s ≠ "isPrototypeOf" :=
          jsToLowerStr_ne s _ 'P' (by decide) (by decide) (by decide)
        have w3 : jsToLowerStr s ≠ "propertyIsEnumerable" :=
          jsToLowerStr_ne s _ 'I' (by decide) (by decide) (by decide)
        have w4 : jsToLowerStr s ≠ "toLocaleString" :=
          jsToLowerStr_ne s _ 'L' (by decide) (by decide) (by decide)
        have w5 : jsToLowerStr s ≠ "toString" :=
          jsToLowerStr_ne s _ 'S' (by decide) (by decide) (by decide)
        have w6 : jsToLowerStr s ≠ "valueOf" :=
          jsToLowerStr_ne s _ 'O' (by decide) (by decide) (by decide)
        have w7 : jsToLowerStr s ≠ "__defineGetter__" :=
          jsToLowerStr_ne s _ 'G' (by decide) (by decide) (by decide)
        have w8 : jsToLowerStr s ≠ "__defineSetter__" :=
          jsToLowerStr_ne s _ 'S' (by decide) (by decide) (by decide)
        have w9 : jsToLowerStr s ≠ "__lookupGetter__" :=
          jsToLowerStr_ne s _ 'G' (by decide) (by decide) (by decide)
        have w10 : jsToLowerStr s ≠ "__lookupSetter__" :=
          jsToLowerStr_ne s _ 'S' (by decide) (by decide) (by decide)
        simp [buildCTGovQuery, hs, he, sexMapLookup, objectProtoMethodNames,
          h1, h2, h3, h4, h5, h6, w1, w2, w3, w4, w5, w6, w7, w8, w9, w10]
  · intro hs
    simp [buildCTGovQuery, hs]

/-- Witness for `buildQuery_sex_filter_amended` at the capitalized inputs
"Male" and "Constructor". -/
theorem buildQuery_sex_filter_amended_witness :
    (buildCTGovQuery sampleQueryProfile).aggFilters = some "sex:m" ∧
    (∃ v, (buildCTGovQuery constructorSexProfile).aggFilters =
      some ("sex:" ++ v)) :=
  ⟨((buildQuery_sex_filter_amended sampleQueryProfile).1 "Male" rfl).1 (by decide),
   ((buildQuery_sex_filter_amended constructorSexProfile).1 "Constructor"
     rfl).2.2.2.2.1 (by decide)⟩

-- ============================================================================
-- C5 / C9 helper: filter-map structure of the mapped studies
-- ============================================================================

lemma filterMap_map_some_sublist {α β : Type} (f : α → Option β) (l : List α) :
    ((l.filterMap f).map some).Sublist (l.map f) := by
  induction l with
  | nil => simp
  | cons a l ih =>
      cases h : f a with
      | none =>
          simp only [List.filterMap_cons, h, List.map_cons]
          exact List.Sublist.cons _ ih
      | some b =>
          simp only [List.filterMap_cons, h, List.map_cons]
          exact ih.cons₂ (some b)

lemma searchAndMapTrials_ok_filterMap (profile : PatientProfile)
    (studies : List CTGovStudy) (status : Nat) (statusText : String)
    (tc : Option Nat) :
    searchAndMapTrials profile
        (FetchOutcome.response true status statusText
          (Except.ok ⟨some studies, tc⟩)) =
      Except.ok (studies.filterMap mapStudyToTrial) := by
  cases studies with
  | nil => rfl
  | cons s l =>
      exact congrArg Except.ok (by
        show ((s :: l).map mapStudyToTrial).filterMap id =
          (s :: l).filterMap mapStudyToTrial
        rw [List.filterMap_map]
        rfl)

-- ============================================================================
-- C5: per-record tolerance of the study mapper
-- ============================================================================

/-- C5: a study record missing the protocol section, the nctId or the title is
dropped before validation; otherwise the assembled candidate is kept exactly
when it passes the Trial schema validation and dropped silently otherwise
(`mapStudyToTrial` is a total function, so the mapping never throws); in
particular a response with one study missing `nctId` yields the list of the
valid studies' trials, excluding that study. -/
theorem mapper_drops_invalid_records :
    (∀ study, studyMissingIdOrTitle study = true → mapStudyToTrial study = none) ∧
    (∀ study protocol nctId title,
      study.protocolSection = some protocol →
      jsTruthyStr (protocol.identificationModule.bind (·.nctId)) = some nctId →
      jsTruthyStr (protocol.identificationModule.bind (·.briefTitle)) = some title →
      mapStudyToTrial study =
        if trialSchemaCheck (assembleTrial protocol nctId title) then
          some (assembleTrial protocol nctId title)
        else none) ∧
    searchAndMapTrials blankProfile
        (FetchOutcome.response true 200 "OK"
          (Except.ok ⟨some [studyA, studyNoId, studyC], some 3⟩)) =
      Except.ok [trialA, trialC] := by
  refine ⟨?_, ?_, ?_⟩
  · intro study h
    unfold studyMissingIdOrTitle at h
    rcases hp : study.protocolSection with _ | protocol
    · simp [mapStudyToTrial, hp]
    · rw [hp] at h
      simp only [Bool.or_eq_true, Option.isNone_iff_eq_none] at h
      rcases hid : jsTruthyStr (protocol.identificationModule.bind (·.nctId)) with
        _ | nct
      · simp [mapStudyToTrial, hp, hid]
      · rcases ht : jsTruthyStr (protocol.identificationModule.bind (·.briefTitle))
          with _ | ttl
        · simp [mapStudyToTrial, hp, hid, ht]
        · rw [hid, ht] at h
          simp at h
  · intro study protocol nctId title hp hid ht
    simp [mapStudyToTrial, hp, hid, ht]
  · decide

/-- Witness for `mapper_drops_invalid_records`: the study missing its nctId is
dropped, and the well-formed study maps to its validated trial. -/
theorem mapper_drops_invalid_records_witness :
    mapStudyToTrial studyNoId = none ∧
    mapStudyToTrial studyA =
      (if trialSchemaCheck (assembleTrial protoA "NCT001" "Study A") then
        some (assembleTrial protoA "NCT001" "Study A")
      else none) :=
  ⟨mapper_drops_invalid_records.1 studyNoId (by decide),
   mapper_drops_invalid_records.2.1 studyA protoA "NCT001" "Study A" rfl
     (by decide) (by decide)⟩

-- ============================================================================
-- C9: order-preserving filter-map of the registry response
-- ============================================================================

/-- C9: on a successful response the returned trial list is exactly the
order-preserving filter-map of `mapStudyToTrial` over the studies array, and
(as the sublist relation makes precise) the emitted trials appear in the same
relative order as their source records, each coming from a strictly later
study than the previous one. -/
theorem search_results_are_ordered_filterMap (profile : PatientProfile)
    (studies : List CTGovStudy) (status : Nat) (statusText : String)
    (tc : Option Nat) :
    searchAndMapTrials profile
        (FetchOutcome.response true status statusText
          (Except.ok ⟨some studies, tc⟩)) =
      Except.ok (studies.filterMap mapStudyToTrial) ∧
    ((studies.filterMap mapStudyToTrial).map some).Sublist
      (studies.map mapStudyToTrial) :=
  ⟨searchAndMapTrials_ok_filterMap profile studies status statusText tc,
   filterMap_map_some_sublist mapStudyToTrial studies⟩

-- ============================================================================
-- C6: failure modes of the registry client
-- ============================================================================

/-- C6: `searchAndMapTrials` fails with a `CTGovAPIError` carrying the numeric
status code, and a message containing the numeric status and status text,
exactly when the HTTP response is not ok; it fails with a `CTGovAPIError`
without a status code wrapping the underlying message when the network call
itself throws; every failure is one of those two shapes; and a successful
response with no matching studies (absent or empty `studies`) yields the empty
list rather than an error. -/
theorem search_failure_modes (profile : PatientProfile) (outcome : FetchOutcome) :
    (∀ status statusText body,
      outcome = FetchOutcome.response false status statusText body →
      searchAndMapTrials profile outcome =
        Except.error ⟨"API returned " ++ toString status ++ ": " ++ statusText,
          some status⟩) ∧
    (∀ msg, outcome = FetchOutcome.throwsErr msg →
      searchAndMapTrials profile outcome =
        Except.error ⟨"Search failed: " ++ msg, none⟩) ∧
    (∀ e, searchAndMapTrials profile outcome = Except.error e →
      ((∃ status statusText body,
          outcome = FetchOutcome.response false status statusText body ∧
          e = ⟨"API returned " ++ toString status ++ ": " ++ statusText,
            some status⟩) ∨
       (e.statusCode = none ∧ ∃ m, e.message = "Search failed: " ++ m))) ∧
    (∀ e, searchAndMapTrials profile outcome = Except.error e →
      (e.statusCode.isSome = true ↔
        ∃ status statusText body,
          outcome = FetchOutcome.response false status statusText body)) ∧
    (∀ status statusText tc,
      outcome = FetchOutcome.response true status statusText
        (Except.ok ⟨none, tc⟩) →
      searchAndMapTrials profile outcome = Except.ok []) ∧
    (∀ status statusText tc,
      outcome = FetchOutcome.response true status statusText
        (Except.ok ⟨some [], tc⟩) →
      searchAndMapTrials profile outcome = Except.ok []) := by
  refine ⟨?_, ?_, ?_, ?_, ?_, ?_⟩
  · rintro status statusText body rfl
    rfl
  · rintro msg rfl
    rfl
  · intro e he
    cases outcome with
    | throwsErr msg =>
        right
        cases he
        exact ⟨rfl, msg, rfl⟩
    | response ok status statusText body =>
        cases ok with
        | false =>
            left
            cases he
            exact ⟨status, statusText, body, rfl, rfl⟩
        | true =>
            right
            cases body with
            | error msg =>
                cases he
                exact ⟨rfl, msg, rfl⟩
            | ok data =>
                rcases data with ⟨studies, tc⟩
                cases studies with
                | none => cases he
                | some l =>
                    cases l with
                    | nil => cases he
                    | cons s l =>
                        rw [searchAndMapTrials_ok_filterMap] at he
                        cases he
  · intro e he
    cases outcome with
    | throwsErr msg =>
        cases he
        simp
    | response ok status statusText body =>
        cases ok with
        | false =>
            cases he
            simp
        | true =>
            cases body with
            | error msg =>
                cases he
                simp
            | ok data =>
                rcases data with ⟨studies, tc⟩
                cases studies with
                | none => cases he
                | some l =>
                    cases l with
                    | nil => cases he
                    | cons s l =>
                        rw [searchAndMapTrials_ok_filterMap] at he
                        cases he
  · rintro status statusText tc rfl
    rfl
  · rintro status statusText tc rfl
    rfl

/-- Witness for `search_failure_modes`: a 503 response and a thrown network
error, at concrete inputs. -/
theorem search_failure_modes_witness :
    searchAndMapTrials blankProfile
        (FetchOutcome.response false 503 "Service Unavailable"
          (Except.ok ⟨none, none⟩)) =
      Except.error ⟨"API returned 503: Service Unavailable", some 503⟩ ∧
    searchAndMapTrials blankProfile (FetchOutcome.throwsErr "fetch failed") =
      Except.error ⟨"Search failed: fetch failed", none⟩ ∧
    searchAndMapTrials blankProfile
        (FetchOutcome.response true 200 "OK" (Except.ok ⟨some [], none⟩)) =
      Except.ok [] := by
  refine ⟨?_, ?_, ?_⟩
  · have h := (search_failure_modes blankProfile
      (FetchOutcome.response false 503 "Service Unavailable"
        (Except.ok ⟨none, none⟩))).1 503 "Service Unavailable"
      (Except.ok ⟨none, none⟩) rfl
    rw [h]
    rfl
  · exact (search_failure_modes blankProfile
      (FetchOutcome.throwsErr "fetch failed")).2.1 "fetch failed" rfl
  · exact (search_failure_modes blankProfile
      (FetchOutcome.response true 200 "OK" (Except.ok ⟨some [], none⟩))).2.2.2.2.2
      200 "OK" none rfl

-- ============================================================================
-- C8: empty-transcript guard of the extraction engine
-- ============================================================================

/-- C8: on an empty or whitespace-only transcript — in particular `""` and
`"   "` — `extractPatientProfile` fails with the input-validation error
`Error('Transcript cannot be empty')` (the spec's `InvalidInputError` kind,
thrown before the try block, hence never wrapped) and the completion gateway
is invoked zero times (no network call is made). -/
theorem extract_empty_transcript_rejected (llm : LLMOutcome)
    (interpret : String → ParseOutcome) :
    extractPatientProfile "" llm interpret =
      (Except.error ⟨"Transcript cannot be empty"⟩, 0) ∧
    extractPatientProfile "   " llm interpret =
      (Except.error ⟨"Transcript cannot be empty"⟩, 0) ∧
    (∀ t, jsTrim t = "" →
      extractPatientProfile t llm interpret =
        (Except.error ⟨"Transcript cannot be empty"⟩, 0)) := by
  refine ⟨?_, ?_, ?_⟩
  · unfold extractPatientProfile
    rw [if_pos (Or.inl rfl)]
  · unfold extractPatientProfile
    rw [if_pos (Or.inr (by decide))]
  · intro t ht
    unfold extractPatientProfile
    rw [if_pos (Or.inr ht)]

/-- Witness for `extract_empty_transcript_rejected` at a tab-only transcript
with concrete gateway and parse outcomes. -/
theorem extract_empty_transcript_rejected_witness :
    extractPatientProfile "\t" (LLMOutcome.success "{}")
        (fun _ => ParseOutcome.jsonError "unexpected end") =
      (Except.error ⟨"Transcript cannot be empty"⟩, 0) :=
  (extract_empty_transcript_rejected (LLMOutcome.success "{}")
    (fun _ => ParseOutcome.jsonError "unexpected end")).2.2 "\t" (by decide)

-- ============================================================================
-- C10: wrapping of extraction failures
-- ============================================================================

/-- C10: for every non-empty, non-whitespace transcript, a gateway failure, a
JSON parse failure or a schema-validation failure is rethrown as an error
whose message is exactly `'Patient profile extraction failed: '` followed by
the underlying message, while the empty-transcript error
`'Transcript cannot be empty'` propagates without that wrapping. -/
theorem extract_failures_wrapped (transcript : String) (llm : LLMOutcome)
    (interpret : String → ParseOutcome) :
    (¬(transcript = "" ∨ jsTrim transcript = "") →
      ((∀ msg, llm = LLMOutcome.failure msg →
          extractPatientProfile transcript llm interpret =
            (Except.error ⟨"Patient profile extraction failed: " ++ msg⟩, 1)) ∧
       (∀ raw msg, llm = LLMOutcome.success raw →
          interpret raw = ParseOutcome.jsonError msg →
          extractPatientProfile transcript llm interpret =
            (Except.error ⟨"Patient profile extraction failed: " ++ msg⟩, 1)) ∧
       (∀ raw msg, llm = LLMOutcome.success raw →
          interpret raw = ParseOutcome.schemaError msg →
          extractPatientProfile transcript llm interpret =
            (Except.error ⟨"Patient profile extraction failed: " ++ msg⟩, 1)))) ∧
    ((transcript = "" ∨ jsTrim transcript = "") →
      (extractPatientProfile transcript llm interpret).1 =
        Except.error ⟨"Transcript cannot be empty"⟩ ∧
      ("Patient profile extraction failed: ".isPrefixOf
        "Transcript cannot be empty") = false) := by
  constructor
  · intro hne
    refine ⟨?_, ?_, ?_⟩
    · rintro msg rfl
      unfold extractPatientProfile
      rw [if_neg hne]
    · rintro raw msg rfl hmsg
      unfold extractPatientProfile
      rw [if_neg hne]
      simp only [hmsg]
    · rintro raw msg rfl hmsg
      unfold extractPatientProfile
      rw [if_neg hne]
      simp only [hmsg]
  · intro he
    constructor
    · unfold extractPatientProfile
      rw [if_pos he]
    · decide

/-- Witness for `extract_failures_wrapped` at a concrete transcript with a
gateway failure. -/
theorem extract_failures_wrapped_witness :
    extractPatientProfile "patient is 55" (LLMOutcome.failure "boom")
        (fun _ => ParseOutcome.jsonError "x") =
      (Except.error ⟨"Patient profile extraction failed: boom"⟩, 1) :=
  ((extract_failures_wrapped "patient is 55" (LLMOutcome.failure "boom")
      (fun _ => ParseOutcome.jsonError "x")).1 (by decide)).1 "boom" rfl

-- ============================================================================
-- C7 helpers: character classes and scanning
-- ============================================================================

lemma ws_not_digit {c : Char} (h : isJsWhitespace c = true) : isDigitChar c = false := by
  unfold isJsWhitespace at h
  unfold isDigitChar
  simp only [Bool.or_eq_true, decide_eq_true_eq] at h
  simp only [Bool.and_eq_false_iff, decide_eq_false_iff_not]
  omega

lemma lowerHead_not_digit_ws {c : Char}
    (h : jsCharToLower c = 'y' ∨ jsCharToLower c = 'm' ∨ jsCharToLower c = 'd') :
    isDigitChar c = false ∧ isJsWhitespace c = false := by
  unfold jsCharToLower at h
  by_cases hu : (65 ≤ c.toNat && c.toNat ≤ 90) = true
  · rw [if_pos hu] at h
    simp only [Bool.and_eq_true, decide_eq_true_eq] at hu
    constructor
    · unfold isDigitChar
      simp only [Bool.and_eq_false_iff, decide_eq_false_iff_not]
      omega
    · unfold isJsWhitespace
      simp only [Bool.or_eq_false_iff, decide_eq_false_iff_not]
      omega
  · rw [if_neg hu] at h
    rcases h with rfl | rfl | rfl <;> exact ⟨by decide, by decide⟩

lemma allP_takeWhile_append {α : Type} {p : α → Bool} {d r : List α}
    (hd : ∀ a ∈ d, p a = true) :
    (d ++ r).takeWhile p = d ++ r.takeWhile p := by
  induction d with
  | nil => simp
  | cons a d2 ih =>
      rw [List.cons_append, List.takeWhile_cons,
        if_pos (hd a (List.mem_cons_self a d2)),
        ih (fun x hx => hd x (List.mem_cons_of_mem a hx)), List.cons_append]

lemma allP_dropWhile_append {α : Type} {p : α → Bool} {d r : List α}
    (hd : ∀ a ∈ d, p a = true) :
    (d ++ r).dropWhile p = r.dropWhile p := by
  induction d with
  | nil => simp
  | cons a d2 ih =>
      rw [List.cons_append, List.dropWhile_cons,
        if_pos (hd a (List.mem_cons_self a d2)),
        ih (fun x hx => hd x (List.mem_cons_of_mem a hx))]

lemma ageWord_head {u : AgeUnit} {t : List Char}
    (h : AgeWordFor u (t.map jsCharToLower)) :
    ∃ c t2, t = c :: t2 ∧
      (jsCharToLower c = 'y' ∨ jsCharToLower c = 'm' ∨ jsCharToLower c = 'd') := by
  cases t with
  | nil =>
      exfalso
      cases u <;> rcases h with h | h <;> exact absurd h (by decide)
  | cons c t2 =>
      refine ⟨c, t2, rfl, ?_⟩
      rw [List.map_cons] at h
      cases u with
      | Years =>
          rcases h with h | h <;>
            exact Or.inl (by
              have := congrArg (fun l => l.headD ' ') h
              simpa using this)
      | Months =>
          rcases h with h | h <;>
            exact Or.inr (Or.inl (by
              have := congrArg (fun l => l.headD ' ') h
              simpa using this))
      | Days =>
          rcases h with h | h <;>
            exact Or.inr (Or.inr (by
              have := congrArg (fun l => l.headD ' ') h
              simpa using this))

lemma regexOk_gives_word {t : List Char} (h : ageUnitRegexOk t = true) :
    AgeWordFor (unitFromStr t) (t.map jsCharToLower) := by
  unfold ageUnitRegexOk at h
  simp only [Bool.or_eq_true, decide_eq_true_eq] at h
  rcases h with ((((h | h) | h) | h) | h) | h
  · have hu : unitFromStr t = AgeUnit.Years := by
      unfold unitFromStr
      rw [h]
      decide
    rw [hu, h]
    exact Or.inl rfl
  · have hu : unitFromStr t = AgeUnit.Years := by
      unfold unitFromStr
      rw [h]
      decide
    rw [hu, h]
    exact Or.inr rfl
  · have hu : unitFromStr t = AgeUnit.Months := by
      unfold unitFromStr
      rw [h]
      decide
    rw [hu, h]
    exact Or.inl rfl
  · have hu : unitFromStr t = AgeUnit.Months := by
      unfold unitFromStr
      rw [h]
      decide
    rw [hu, h]
    exact Or.inr rfl
  · have hu : unitFromStr t = AgeUnit.Days := by
      unfold unitFromStr
      rw [h]
      decide
    rw [hu, h]
    exact Or.inl rfl
  · have hu : unitFromStr t = AgeUnit.Days := by
      unfold unitFromStr
      rw [h]
      decide
    rw [hu, h]
    exact Or.inr rfl

lemma parseAgeChars_iff (cs : List Char) (v : Nat) (u : AgeUnit) :
    parseAgeChars cs = some ⟨v, u⟩ ↔
      ∃ d w t : List Char, cs = d ++ w ++ t ∧ d ≠ [] ∧
        (∀ c ∈ d, isDigitChar c = true) ∧ (∀ c ∈ w, isJsWhitespace c = true) ∧
        AgeWordFor u (t.map jsCharToLower) ∧ v = natOfDigits d := by
  constructor
  · intro h
    unfold parseAgeChars at h
    by_cases hemp : cs.isEmpty = true
    · rw [if_pos hemp] at h
      exact absurd h (by simp)
    · rw [if_neg hemp] at h
      unfold ageRegexMatch at h
      by_cases hde : (cs.takeWhile isDigitChar).isEmpty = true
      · rw [if_pos hde] at h
        exact absurd h (by simp)
      · rw [if_neg hde] at h
        by_cases hok :
            ageUnitRegexOk ((cs.dropWhile isDigitChar).dropWhile isJsWhitespace) = true
        · rw [if_pos hok] at h
          simp only [Option.some.injEq, AgeVal.mk.injEq] at h
          obtain ⟨hv, hu⟩ := h
          refine ⟨cs.takeWhile isDigitChar,
            (cs.dropWhile isDigitChar).takeWhile isJsWhitespace,
            (cs.dropWhile isDigitChar).dropWhile isJsWhitespace, ?_, ?_, ?_, ?_, ?_, ?_⟩
          · rw [List.append_assoc, List.takeWhile_append_dropWhile,
              List.takeWhile_append_dropWhile]
          · intro hnil
            rw [hnil] at hde
            exact hde rfl
          · intro c hc
            exact List.mem_takeWhile_imp hc
          · intro c hc
            exact List.mem_takeWhile_imp hc
          · rw [← hu]
            exact regexOk_gives_word hok
          · exact hv.symm
        · rw [if_neg hok] at h
          exact absurd h (by simp)
  · rintro ⟨d, w, t, hsplit, hdne, hdig, hws, hword, hv⟩
    obtain ⟨c, t2, ht, hc⟩ := ageWord_head hword
    subst ht
    have hcnd : isDigitChar c = false := (lowerHead_not_digit_ws hc).1
    have hcnw : isJsWhitespace c = false := (lowerHead_not_digit_ws hc).2
    have hde : d.isEmpty = false := by
      cases d with
      | nil => exact absurd rfl hdne
      | cons a d2 => rfl
    have hne : cs.isEmpty = false := by
      rw [hsplit]
      cases d with
      | nil => exact absurd rfl hdne
      | cons a d2 => rfl
    have htake : cs.takeWhile isDigitChar = d := by
      rw [hsplit, List.append_assoc, allP_takeWhile_append hdig]
      have hnil : (w ++ c :: t2).takeWhile isDigitChar = [] := by
        cases w with
        | nil => simp [List.takeWhile_cons, hcnd]
        | cons a w2 =>
            have ha : isJsWhitespace a = true := hws a (by simp)
            simp [List.takeWhile_cons, ws_not_digit ha]
      rw [hnil, List.append_nil]
    have hdrop : cs.dropWhile isDigitChar = w ++ c :: t2 := by
      rw [hsplit, List.append_assoc, allP_dropWhile_append hdig]
      cases w with
      | nil => simp [List.dropWhile_cons, hcnd]
      | cons a w2 =>
          have ha : isJsWhitespace a = true := hws a (by simp)
          simp [List.dropWhile_cons, ws_not_digit ha]
    have hdrop2 : (cs.dropWhile isDigitChar).dropWhile isJsWhitespace = c :: t2 := by
      rw [hdrop, allP_dropWhile_append hws]
      simp [List.dropWhile_cons, hcnw]
    have hok : ageUnitRegexOk (c :: t2) = true := by
      unfold ageUnitRegexOk
      cases u with
      | Years => rcases hword with h | h <;> simp [h]
      | Months => rcases hword with h | h <;> simp [h]
      | Days => rcases hword with h | h <;> simp [h]
    have hufs : unitFromStr (c :: t2) = u := by
      unfold unitFromStr
      cases u with
      | Years => rcases hword with h | h <;> rw [h] <;> decide
      | Months => rcases hword with h | h <;> rw [h] <;> decide
      | Days => rcases hword with h | h <;> rw [h] <;> decide
    unfold parseAgeChars ageRegexMatch
    rw [hne, htake, hde, hdrop2, hok]
    simp only [if_false, if_true, Bool.false_eq_true, Bool.true_eq_false]
    rw [hufs, hv]

-- ============================================================================
-- C7: age-string parsing
-- ============================================================================

/-- C7 (counterexample): the claim says any input not of the form
`'<integer> <Years|Months|Days>'` yields absent; but the source regex uses
`\s*` between the number and the unit, so `"18Years"`, which is not of the
claimed single-space form, still parses to `{18, Years}`. -/
theorem parseAge_no_space_counterexample :
    singleSpaceAgeFormCheck "18Years" = false ∧
    parseAge (some "18Years") = some ⟨18, AgeUnit.Years⟩ := by
  decide

/-- C7 (amended): `parseAge` returns `{value, unit}` exactly for the input
strings consisting of an integer, optional whitespace (zero or more
characters), and a unit `Years`/`Months`/`Days` (case-insensitive, the
trailing `s` optional), with the stated round-trips `"18 Years"` → {18, Years}
and `"6 Months"` → {6, Months}; for any other input string, including absent
and `"adult"`, it returns absent, and it is a total function (never throws). -/
theorem parseAge_amended_spec :
    parseAge none = none ∧
    (∀ s v u, parseAge (some s) = some ⟨v, u⟩ ↔ AgeStringMatch s v u) ∧
    parseAge (some "18 Years") = some ⟨18, AgeUnit.Years⟩ ∧
    parseAge (some "6 Months") = some ⟨6, AgeUnit.Months⟩ ∧
    parseAge (some "adult") = none := by
  refine ⟨rfl, ?_, by decide, by decide, by decide⟩
  intro s v u
  exact parseAgeChars_iff s.data v u

/-- Witness for `parseAge_amended_spec`: the amended form accepts a unit glued
to the digits with no whitespace. -/
theorem parseAge_amended_spec_witness :
    parseAge (some "12Days") = some ⟨12, AgeUnit.Days⟩ :=
  (parseAge_amended_spec.2.1 "12Days" 12 AgeUnit.Days).mpr
    ⟨['1', '2'], [], ['D', 'a', 'y', 's'], by decide, by decide, by decide,
      by decide, Or.inr (by decide), by decide⟩
